import Mathlib

/-!
Verification of the Zen Grid Market Forecaster dashboard
(src/zen_grid_cloud.py) against its specification.

The program is a Streamlit dashboard: a connection manager
(create_connection), a bulk loader (load_data) issuing three fixed
SELECT queries over one session, an accuracy computation over the
forecast records, and a sidebar connection-status check.  External
effects (the Snowflake warehouse, the network) are modelled by oracles:
a ConnOracle giving the outcome of the single connection attempt, and a
Warehouse giving the outcome of each context-setting statement and each
table read.  UI output is modelled as a list of messages, and resource
usage as a list of events (connection attempts and session closes).
-/

namespace ZenGrid

/-- A live warehouse session handle, identified by an id for tracing. -/
structure Conn where
  id : Nat
  deriving DecidableEq, Repr

/-- A message emitted to the UI (st.error / st.warning / st.info /
st.success / st.write in the source). -/
inductive Msg where
  | error (s : String)
  | warning (s : String)
  | info (s : String)
  | success (s : String)
  | write (s : String)
  deriving DecidableEq, Repr

/-- A resource event: one connection attempt, or closing a session. -/
inductive Event where
  | connectAttempt
  | close (c : Conn)
  deriving DecidableEq, Repr

/-- Whether the first list of characters begins the second. -/
def beginsChars : List Char → List Char → Bool
  | [], _ => true
  | _ :: _, [] => false
  | a :: as, b :: bs => a == b && beginsChars as bs

/-- Whether the first list of characters occurs contiguously in the second. -/
def hasSubChars (needle : List Char) : List Char → Bool
  | [] => beginsChars needle []
  | h :: t => beginsChars needle (h :: t) || hasSubChars needle t

/-- Python's `needle in hay` on strings: substring containment. -/
def containsSub (hay needle : String) : Bool :=
  hasSubChars needle.toList hay.toList

/-- Python's str.lower() (ASCII case folding on the characters). -/
def toLowerStr (s : String) : String :=
  String.mk (s.toList.map Char.toLower)

/-- Oracle for the single connection attempt made by create_connection:
either a usable session handle or the transport's error message. -/
structure ConnOracle where
  connectResult : Except String Conn

/-- Result of create_connection: the optional handle, the messages
shown, and the resource events that occurred. -/
structure ConnResult where
  conn : Option Conn
  msgs : List Msg
  events : List Event
  deriving DecidableEq, Repr

/-- Model of create_connection (src lines 8-23): one connection attempt;
on failure, display the transport error verbatim inside the
"Connection failed: " message and return no handle. -/
def create_connection (o : ConnOracle) : ConnResult :=
  match o.connectResult with
  | Except.ok c => ⟨some c, [], [Event.connectAttempt]⟩
  | Except.error e =>
      ⟨none, [Msg.error ("Connection failed: " ++ e)], [Event.connectAttempt]⟩

/-- One row of ZEN_MARKET.FORECASTING.FORECAST_POSTMORTEM as selected by
the forecast query (src lines 40-51). -/
structure ForecastRow where
  date : Int
  symbol : String
  forecast_bias : String
  actual_close : ℚ
  hit : Bool
  load_ts : Int
  deriving DecidableEq, Repr

/-- One row of ZEN_MARKET.FORECASTING.DAILY_MARKET_DATA as selected by
the market query (src lines 55-64); price fields are nullable. -/
structure MarketRow where
  date : Int
  spy_close : Option ℚ
  es_close : Option ℚ
  vix_close : Option ℚ
  vvix_close : Option ℚ
  deriving DecidableEq, Repr

/-- One row of ZEN_MARKET.FORECASTING.FORECAST_SUMMARY as selected by
the summary query (src lines 69-80). -/
structure SummaryRow where
  date : Int
  symbol : String
  forecast_bias : String
  supports : String
  resistances : String
  atm_straddle : ℚ
  notes : String
  deriving DecidableEq, Repr

/-- Oracle for the warehouse as seen by load_data: the outcome of each
of the three context-setting statements (USE DATABASE / SCHEMA /
WAREHOUSE) and, for each table, either its full contents or the error
raised when reading it. -/
structure Warehouse where
  useDatabase : Except String Unit
  useSchema : Except String Unit
  useWarehouse : Except String Unit
  forecastTable : Except String (List ForecastRow)
  marketTable : Except String (List MarketRow)
  summaryTable : Except String (List SummaryRow)

/-- Insert a row into a list sorted descending by key. -/
def insertDesc (key : α → Int) (r : α) : List α → List α
  | [] => [r]
  | x :: xs => if key x ≤ key r then r :: x :: xs else x :: insertDesc key r xs

/-- Sort a list descending by key (the warehouse's ORDER BY key DESC). -/
def sortDesc (key : α → Int) : List α → List α
  | [] => []
  | x :: xs => insertDesc key x (sortDesc key xs)

/-- Warehouse evaluation of SELECT ... ORDER BY DATE DESC LIMIT n over a
table: sort by date descending, keep the first n rows. -/
def runSelect (key : α → Int) (limit : Nat) (rows : List α) : List α :=
  (sortDesc key rows).take limit

/-- The LIMIT of the forecast query (src line 50). -/
def forecastLimit : Nat := 100

/-- The LIMIT of the market query (src line 64). -/
def marketLimit : Nat := 100

/-- The LIMIT of the summary query (src line 80). -/
def summaryLimit : Nat := 50

/-- The try-block of load_data (src lines 31-85): set the session
context, then run the three queries in order; the first failure aborts
everything after it (a raised exception skips the rest of the block). -/
def loadBody (w : Warehouse) :
    Except String (List ForecastRow × List MarketRow × List SummaryRow) :=
  match w.useDatabase with
  | Except.error e => Except.error e
  | Except.ok _ =>
    match w.useSchema with
    | Except.error e => Except.error e
    | Except.ok _ =>
      match w.useWarehouse with
      | Except.error e => Except.error e
      | Except.ok _ =>
        match w.forecastTable with
        | Except.error e => Except.error e
        | Except.ok fr =>
          match w.marketTable with
          | Except.error e => Except.error e
          | Except.ok mr =>
            match w.summaryTable with
            | Except.error e => Except.error e
            | Except.ok sr =>
              Except.ok (runSelect (fun r => r.date) forecastLimit fr,
                         runSelect (fun r => r.date) marketLimit mr,
                         runSelect (fun r => r.date) summaryLimit sr)

/-- The warning shown when the error text matches the permission
heuristic (src line 91). -/
def permissionWarning : Msg := Msg.warning "⚠️ **Permission Issue Detected**"

/-- The hint shown when the error text matches the permission heuristic
(src line 92). -/
def permissionInfo : Msg :=
  Msg.info "The Streamlit Cloud user may need additional permissions. Check your Snowflake user grants for ZEN_MARKET.FORECASTING schema access."

/-- The except-block of load_data (src lines 87-93): show the error
verbatim; when its lowercased text contains "not authorized", also show
the permission warning and hint. -/
def failMsgs (e : String) : List Msg :=
  Msg.error ("Data loading failed: " ++ e) ::
    (if containsSub (toLowerStr e) "not authorized" then
      [permissionWarning, permissionInfo]
    else [])

/-- Result of load_data: the three optional record sets (None on any
failure), the messages shown, and the resource events. -/
structure LoadResult where
  forecast : Option (List ForecastRow)
  market : Option (List MarketRow)
  summary : Option (List SummaryRow)
  msgs : List Msg
  events : List Event

/-- Model of load_data (src lines 25-96): acquire a connection; if that
fails return (None, None, None) having shown the connection error; else
run the try-block, on failure show failMsgs and return (None, None,
None); the finally-clause closes the session on every path on which a
connection was acquired. -/
def load_data (o : ConnOracle) (w : Warehouse) : LoadResult :=
  match create_connection o with
  | ⟨none, msgs, evs⟩ => ⟨none, none, none, msgs, evs⟩
  | ⟨some c, msgs, evs⟩ =>
    match loadBody w with
    | Except.ok (f, m, s) =>
        ⟨some f, some m, some s, msgs, evs ++ [Event.close c]⟩
    | Except.error e =>
        ⟨none, none, none, msgs ++ failMsgs e, evs ++ [Event.close c]⟩

/-- Number of true hit flags in a forecast record set
(forecast_df['HIT'].sum(), src line 158). -/
def hitsCount (rows : List ForecastRow) : Nat :=
  (rows.filter (fun r => r.hit)).length

/-- The overall accuracy computation (src line 159):
(hits / total) * 100 when total > 0, else 0. -/
def accuracy (rows : List ForecastRow) : ℚ :=
  if 0 < rows.length then
    ((hitsCount rows : ℚ) / (rows.length : ℚ)) * 100
  else 0

/-- The user-visible state main reaches after the load
(src lines 142-177). -/
inductive View where
  | loadFailed
  | noData
  | dashboard (acc : ℚ) (hits : Nat) (misses : Nat)
  deriving DecidableEq, Repr

/-- Which view main renders from the load result (src lines 142-160):
a None forecast set means the load failed; an empty forecast set is the
distinct no-data state; otherwise the metrics dashboard. -/
def mainView (res : LoadResult) : View :=
  match res.forecast with
  | none => View.loadFailed
  | some f =>
      if f.length = 0 then View.noData
      else View.dashboard (accuracy f) (hitsCount f) (f.length - hitsCount f)

/-- The error shown when the load failed (src line 143). -/
def loadFailedMsg : Msg := Msg.error "Failed to load data. Please check permissions."

/-- The troubleshooting info shown with the load-failure error
(src lines 144-149). -/
def troubleshootMsg : Msg :=
  Msg.info "**Troubleshooting Steps:** 1. Verify your Snowflake user has access to ZEN_MARKET database 2. Check that your user has SELECT privileges on FORECASTING schema 3. Ensure the COMPUTE_WH warehouse is accessible"

/-- The warning shown when the load succeeded with zero forecast rows
(src line 153). -/
def noDataMsg : Msg := Msg.warning "No forecast data found in FORECAST_POSTMORTEM table"

/-- The status messages main emits in its dispatch on the load result
(src lines 142-154), before any metric rendering. -/
def mainStatusMsgs (res : LoadResult) : List Msg :=
  match res.forecast with
  | none => [loadFailedMsg, troubleshootMsg]
  | some f => if f.length = 0 then [noDataMsg] else []

/-- Round a rational to 1 decimal place (pandas .round(1), src line 233). -/
def round1 (q : ℚ) : ℚ := ((round (q * 10) : ℤ) : ℚ) / 10

/-- The distinct forecast-bias values, in first-appearance order
(the groups of groupby('FORECAST_BIAS'), src line 229). -/
def groupKeys (rows : List ForecastRow) : List String :=
  (rows.map (fun r => r.forecast_bias)).dedup

/-- The rows of one forecast-bias group. -/
def groupOf (rows : List ForecastRow) (b : String) : List ForecastRow :=
  rows.filter (fun r => r.forecast_bias == b)

/-- The displayed per-group accuracy percentage
(src line 233: (Hits / Total * 100).round(1)). -/
def groupAccuracyPct (rows : List ForecastRow) (b : String) : ℚ :=
  round1 (((hitsCount (groupOf rows b) : ℚ) / ((groupOf rows b).length : ℚ)) * 100)

/-- The per-group accuracy percentages weighted by each group's record
count and summed (then normalized by the total record count). -/
def weightedGroupAccuracy (rows : List ForecastRow) : ℚ :=
  ((groupKeys rows).map
    (fun b => ((groupOf rows b).length : ℚ) * groupAccuracyPct rows b)).sum
    / (rows.length : ℚ)

/-- The context row returned by SELECT CURRENT_USER(), CURRENT_ROLE(),
CURRENT_DATABASE(), CURRENT_SCHEMA() (src line 117). -/
structure SessionCtx where
  user : String
  role : String
  database : String
  schema : String

/-- Result of the sidebar status check: messages shown and resource
events. -/
structure SidebarResult where
  msgs : List Msg
  events : List Event

/-- Model of the sidebar connection-status check (src lines 110-128):
it acquires its own connection via create_connection, independent of
the data load; on success it reports connected, then tries the context
query — whose failure is swallowed by the bare except (no message) —
and closes the connection; on connection failure it reports failure. -/
def sidebarStatus (o : ConnOracle) (ctxQuery : Except String SessionCtx) :
    SidebarResult :=
  match create_connection o with
  | ⟨none, msgs, evs⟩ => ⟨msgs ++ [Msg.error "❌ Connection Failed"], evs⟩
  | ⟨some c, msgs, evs⟩ =>
      let connected := msgs ++ [Msg.success "✅ Snowflake Connected"]
      match ctxQuery with
      | Except.ok ctx =>
          ⟨connected ++
            [Msg.write ("**User:** " ++ ctx.user),
             Msg.write ("**Role:** " ++ ctx.role),
             Msg.write ("**Database:** " ++ ctx.database),
             Msg.write ("**Schema:** " ++ ctx.schema)],
           evs ++ [Event.close c]⟩
      | Except.error _ => ⟨connected, evs ++ [Event.close c]⟩

/-- Outcome of one diagnostic probe: a row count on success, an error
message on failure. -/
inductive ProbeOutcome where
  | success (rows : Nat)
  | failure (err : String)
  deriving DecidableEq, Repr

/-- Whether a probe outcome is a success. -/
def ProbeOutcome.isSuccess : ProbeOutcome → Bool
  | ProbeOutcome.success _ => true
  | ProbeOutcome.failure _ => false

/-- One entry of the diagnostic probe result: the candidate table name
and its independently recorded outcome. -/
structure ProbeEntry where
  table : String
  outcome : ProbeOutcome
  deriving DecidableEq, Repr

/-- Whether a probe oracle answer is a success. -/
def probeOk (r : Except String Nat) : Bool :=
  match r with
  | Except.ok _ => true
  | Except.error _ => false

/-- Record one probe oracle answer as an outcome. -/
def probeOne (r : Except String Nat) : ProbeOutcome :=
  match r with
  | Except.ok n => ProbeOutcome.success n
  | Except.error e => ProbeOutcome.failure e

/-- Modelled from the spec: the diagnostic probe mode (§4.2 mode 2) is
described in the specification but its code is not under src/ (only the
bulk-load mode is).  Per the spec, it independently issues one
SELECT COUNT(*) against each candidate table name, recording each
probe's success (a row count) or failure (an error message)
independently, so the failure of one probe never prevents the remaining
probes from running.  The oracle `resolve` gives each table's answer. -/
def probe_tables (resolve : String → Except String Nat)
    (candidates : List String) : List ProbeEntry :=
  candidates.map (fun t => ⟨t, probeOne (resolve t)⟩)

/-! Helper lemmas about the sorting model, list sums and partitions. -/

theorem length_insertDesc (key : α → Int) (r : α) (l : List α) :
    (insertDesc key r l).length = l.length + 1 := by
  induction l with
  | nil => rfl
  | cons x xs ih =>
      simp only [insertDesc]
      split
      · simp
      · simp [ih]

theorem length_sortDesc (key : α → Int) (l : List α) :
    (sortDesc key l).length = l.length := by
  induction l with
  | nil => rfl
  | cons x xs ih => simp [sortDesc, length_insertDesc, ih]

theorem mem_insertDesc {key : α → Int} {r y : α} {l : List α}
    (h : y ∈ insertDesc key r l) : y = r ∨ y ∈ l := by
  induction l with
  | nil => simpa [insertDesc] using h
  | cons x xs ih =>
      simp only [insertDesc] at h
      split at h
      · rcases List.mem_cons.mp h with h | h
        · exact Or.inl h
        · exact Or.inr h
      · rcases List.mem_cons.mp h with h | h
        · exact Or.inr (List.mem_cons.mpr (Or.inl h))
        · rcases ih h with h | h
          · exact Or.inl h
          · exact Or.inr (List.mem_cons.mpr (Or.inr h))

theorem pairwise_insertDesc {key : α → Int} {r : α} {l : List α}
    (hl : l.Pairwise (fun a b => key b ≤ key a)) :
    (insertDesc key r l).Pairwise (fun a b => key b ≤ key a) := by
  induction l with
  | nil => simp [insertDesc]
  | cons x xs ih =>
      rw [List.pairwise_cons] at hl
      simp only [insertDesc]
      split
      · rename_i hx
        refine List.Pairwise.cons ?_ (List.Pairwise.cons hl.1 hl.2)
        intro y hy
        rcases List.mem_cons.mp hy with h | h
        · subst h; exact hx
        · exact le_trans (hl.1 y h) hx
      · rename_i hx
        refine List.Pairwise.cons ?_ (ih hl.2)
        intro y hy
        rcases mem_insertDesc hy with h | h
        · subst h; omega
        · exact hl.1 y h

theorem pairwise_sortDesc (key : α → Int) (l : List α) :
    (sortDesc key l).Pairwise (fun a b => key b ≤ key a) := by
  induction l with
  | nil => simp [sortDesc]
  | cons x xs ih => exact pairwise_insertDesc ih

theorem length_runSelect (key : α → Int) (n : Nat) (l : List α) :
    (runSelect key n l).length = min n l.length := by
  simp [runSelect, List.length_take, length_sortDesc]

theorem pairwise_runSelect (key : α → Int) (n : Nat) (l : List α) :
    (runSelect key n l).Pairwise (fun a b => key b ≤ key a) :=
  List.Pairwise.sublist (List.take_sublist n _) (pairwise_sortDesc key l)

theorem sum_map_sub_eq (l : List α) (f g : α → ℚ) :
    (l.map f).sum - (l.map g).sum = (l.map (fun a => f a - g a)).sum := by
  induction l with
  | nil => simp
  | cons x xs ih =>
      simp only [List.map_cons, List.sum_cons, ← ih]
      ring

theorem abs_sum_le_sum_abs_bound (l : List α) (f g : α → ℚ)
    (h : ∀ a ∈ l, |f a| ≤ g a) :
    |(l.map f).sum| ≤ (l.map g).sum := by
  induction l with
  | nil => simp
  | cons x xs ih =>
      simp only [List.map_cons, List.sum_cons]
      calc |f x + (xs.map f).sum| ≤ |f x| + |(xs.map f).sum| := abs_add _ _
        _ ≤ g x + (xs.map g).sum :=
            add_le_add (h x (List.mem_cons.mpr (Or.inl rfl)))
              (ih fun a ha => h a (List.mem_cons.mpr (Or.inr ha)))

theorem filter_after_filter_ne (key : α → String) (b b2 : String)
    (hne : b2 ≠ b) (l : List α) :
    ((l.filter (fun a => !(key a == b))).filter (fun a => key a == b2))
      = l.filter (fun a => key a == b2) := by
  induction l with
  | nil => rfl
  | cons x xs ih =>
      by_cases hx : key x = b2
      · have h1 : (key x == b2) = true := by simp [hx]
        have h2 : (key x == b) = false := by simp [hx, hne]
        simp [List.filter_cons, h1, h2, ih]
      · have h1 : (key x == b2) = false := by simp [hx]
        by_cases hb : key x = b
        · have h2 : (key x == b) = true := by simp [hb]
          simp [List.filter_cons, h1, h2, ih]
        · have h2 : (key x == b) = false := by simp [hb]
          simp [List.filter_cons, h1, h2, ih]

theorem filter_swap (p q : α → Bool) (l : List α) :
    (l.filter p).filter q = (l.filter q).filter p := by
  induction l with
  | nil => rfl
  | cons x xs ih =>
      cases hp : p x <;> cases hq : q x <;> simp [List.filter_cons, hp, hq, ih]

theorem sum_length_filter_key (key : α → String) :
    ∀ (bs : List String) (l : List α), bs.Nodup → (∀ a ∈ l, key a ∈ bs) →
      ((bs.map (fun b => (l.filter (fun a => key a == b)).length)).sum = l.length) := by
  intro bs
  induction bs with
  | nil =>
      intro l _ h
      cases l with
      | nil => simp
      | cons a t => exact absurd (h a (List.mem_cons.mpr (Or.inl rfl))) (by simp)
  | cons b bs ih =>
      intro l hnd hmem
      have hnd' := List.nodup_cons.mp hnd
      have hcong :
          (bs.map (fun b2 => (l.filter (fun a => key a == b2)).length)).sum
            = (bs.map (fun b2 =>
                ((l.filter (fun a => !(key a == b))).filter
                  (fun a => key a == b2)).length)).sum := by
        have : ∀ b2 ∈ bs,
            (l.filter (fun a => key a == b2)).length
              = ((l.filter (fun a => !(key a == b))).filter
                  (fun a => key a == b2)).length := by
          intro b2 hb2
          have hne : b2 ≠ b := fun h => hnd'.1 (h ▸ hb2)
          rw [filter_after_filter_ne key b b2 hne l]
        rw [List.map_congr_left this]
      have htail :
          (bs.map (fun b2 =>
              ((l.filter (fun a => !(key a == b))).filter
                (fun a => key a == b2)).length)).sum
            = (l.filter (fun a => !(key a == b))).length := by
        refine ih (l.filter (fun a => !(key a == b))) hnd'.2 ?_
        intro a ha
        have h1 := List.mem_filter.mp ha
        have h2 := hmem a h1.1
        rcases List.mem_cons.mp h2 with h | h
        · exfalso
          have : (key a == b) = true := by simp [h]
          simp [this] at h1
        · exact h
      have hsplit := List.length_eq_length_filter_add (l := l) (fun a => key a == b)
      simp only [List.map_cons, List.sum_cons, hcong, htail]
      omega

theorem length_filter_map_eq (f : α → β) (p : β → Bool) (l : List α) :
    ((l.map f).filter p).length = (l.filter (fun a => p (f a))).length := by
  induction l with
  | nil => rfl
  | cons x xs ih => cases h : p (f x) <;> simp [List.filter_cons, h, ih]

/-! Concrete sample data used by the witness theorems. -/

/-- A sample forecast row whose hit flag is true. -/
def rowHit : ForecastRow := ⟨1, "SPX", "Bullish", 100, true, 0⟩

/-- A sample forecast row whose hit flag is false. -/
def rowMiss : ForecastRow := ⟨2, "SPX", "Bearish", 99, false, 0⟩

/-- A sample session handle. -/
def connA : Conn := ⟨1⟩

/-- An oracle on which the connection attempt succeeds. -/
def okOracle : ConnOracle := ⟨Except.ok connA⟩

/-- An oracle on which the connection attempt fails. -/
def failOracle : ConnOracle := ⟨Except.error "network unreachable"⟩

/-- A warehouse on which every step succeeds. -/
def okWarehouse : Warehouse :=
  ⟨Except.ok (), Except.ok (), Except.ok (),
   Except.ok [rowHit, rowMiss], Except.ok [], Except.ok []⟩

/-- A warehouse on which the first query succeeds and the second fails
with a permission error. -/
def authFailWarehouse : Warehouse :=
  ⟨Except.ok (), Except.ok (), Except.ok (),
   Except.ok [rowHit], Except.error "SQL compilation error: Object NOT AUTHORIZED",
   Except.ok []⟩

/-- A forecast row whose date is the given number. -/
def mkDatedRow (i : Nat) : ForecastRow := ⟨Int.ofNat i, "SPX", "Bullish", 0, true, 0⟩

/-- 500 forecast rows with distinct dates. -/
def frows500 : List ForecastRow := (List.range 500).map mkDatedRow

/-- A warehouse whose forecast table holds 500 rows and whose other
tables are empty; every step succeeds. -/
def w500 : Warehouse :=
  ⟨Except.ok (), Except.ok (), Except.ok (),
   Except.ok frows500, Except.ok [], Except.ok []⟩

/-! The claims. -/

/-- C1: for a loaded forecast record set of size N with H true hit
flags, main displays an overall accuracy of exactly (H/N)*100 when
N > 0, and when N = 0 it reaches the distinct no-data view instead of
raising a divide-by-zero error. -/
theorem C1_accuracy_exact_and_no_data (res : LoadResult) (f : List ForecastRow)
    (h : res.forecast = some f) :
    (f.length = 0 → mainView res = View.noData) ∧
    (0 < f.length →
      mainView res =
        View.dashboard (((hitsCount f : ℚ) / (f.length : ℚ)) * 100)
          (hitsCount f) (f.length - hitsCount f)) := by
  constructor
  · intro h0
    simp [mainView, h, h0]
  · intro hpos
    have hne : ¬ f.length = 0 := by omega
    simp [mainView, h, hne, accuracy, hpos]

/-- Witness for C1: two loaded rows, one hit, give the dashboard view
with accuracy (1/2)*100. -/
theorem C1_witness :
    mainView ⟨some [rowHit, rowMiss], none, none, [], []⟩ =
      View.dashboard
        (((hitsCount [rowHit, rowMiss] : ℚ) /
          (([rowHit, rowMiss] : List ForecastRow).length : ℚ)) * 100)
        (hitsCount [rowHit, rowMiss])
        (([rowHit, rowMiss] : List ForecastRow).length - hitsCount [rowHit, rowMiss]) :=
  (C1_accuracy_exact_and_no_data ⟨some [rowHit, rowMiss], none, none, [], []⟩
    [rowHit, rowMiss] rfl).2 (by simp)

/-- C2: bulk load is all-or-nothing: once a connection is acquired, if
setting any part of the session context or any of the three SELECT
queries fails, load_data returns no result for any of the three
entities — no partial results from earlier successful queries are
surfaced. -/
theorem C2_all_or_nothing (o : ConnOracle) (w : Warehouse) (c : Conn)
    (hc : o.connectResult = Except.ok c)
    (hfail : (∃ e, w.useDatabase = Except.error e) ∨
      (∃ e, w.useSchema = Except.error e) ∨
      (∃ e, w.useWarehouse = Except.error e) ∨
      (∃ e, w.forecastTable = Except.error e) ∨
      (∃ e, w.marketTable = Except.error e) ∨
      (∃ e, w.summaryTable = Except.error e)) :
    (load_data o w).forecast = none ∧ (load_data o w).market = none ∧
      (load_data o w).summary = none := by
  obtain ⟨e, herr⟩ : ∃ e, loadBody w = Except.error e := by
    rcases w with ⟨db, sc, wh, ft, mt, st⟩
    cases db <;> cases sc <;> cases wh <;> cases ft <;> cases mt <;> cases st <;>
      first
        | exact ⟨_, rfl⟩
        | (exfalso;
           rcases hfail with ⟨e, h⟩ | ⟨e, h⟩ | ⟨e, h⟩ | ⟨e, h⟩ | ⟨e, h⟩ | ⟨e, h⟩ <;>
             simp at h)
  simp [load_data, create_connection, hc, herr]

/-- Witness for C2: the connection succeeds, the first query succeeds,
the second query fails; all three results are absent. -/
theorem C2_witness :
    (load_data okOracle authFailWarehouse).forecast = none ∧
    (load_data okOracle authFailWarehouse).market = none ∧
    (load_data okOracle authFailWarehouse).summary = none :=
  C2_all_or_nothing okOracle authFailWarehouse connA rfl
    (Or.inr (Or.inr (Or.inr (Or.inr (Or.inl ⟨_, rfl⟩)))))

/-- C4: on a bulk-load failure after a connection was acquired, the
verbatim error is always shown, and the permission warning and hint are
shown if and only if the lowercased error text contains the substring
"not authorized". -/
theorem C4_permission_hint (o : ConnOracle) (w : Warehouse) (c : Conn) (e : String)
    (hc : o.connectResult = Except.ok c) (he : loadBody w = Except.error e) :
    Msg.error ("Data loading failed: " ++ e) ∈ (load_data o w).msgs ∧
    ((permissionWarning ∈ (load_data o w).msgs ∧
      permissionInfo ∈ (load_data o w).msgs)
      ↔ containsSub (toLowerStr e) "not authorized" = true) := by
  have hld : (load_data o w).msgs = failMsgs e := by
    simp [load_data, create_connection, hc, he]
  rw [hld]
  unfold failMsgs
  cases hcs : containsSub (toLowerStr e) "not authorized" <;>
    simp [permissionWarning, permissionInfo]

/-- Witness for C4: a NOT AUTHORIZED error from the second query makes
load_data show the verbatim error and the permission hint. -/
theorem C4_witness :
    Msg.error ("Data loading failed: " ++ "SQL compilation error: Object NOT AUTHORIZED")
      ∈ (load_data okOracle authFailWarehouse).msgs ∧
    permissionWarning ∈ (load_data okOracle authFailWarehouse).msgs := by
  have h := C4_permission_hint okOracle authFailWarehouse connA
    "SQL compilation error: Object NOT AUTHORIZED" rfl rfl
  exact ⟨h.1, (h.2.mpr (by decide)).1⟩

/-- C5: a successful bulk load returns the three record sets ordered by
date descending and capped at 100, 100 and 50 rows respectively; in
particular a 500-row forecast table yields exactly min 100 500 = 100
rows. -/
theorem C5_limits_and_order (w : Warehouse)
    (fr : List ForecastRow) (mr : List MarketRow) (sr : List SummaryRow)
    (hd : w.useDatabase = Except.ok ()) (hs : w.useSchema = Except.ok ())
    (hw : w.useWarehouse = Except.ok ()) (hf : w.forecastTable = Except.ok fr)
    (hm : w.marketTable = Except.ok mr) (hsu : w.summaryTable = Except.ok sr) :
    ∃ f m s, loadBody w = Except.ok (f, m, s) ∧
      f.length = min forecastLimit fr.length ∧
      m.length = min marketLimit mr.length ∧
      s.length = min summaryLimit sr.length ∧
      f.Pairwise (fun a b => b.date ≤ a.date) ∧
      m.Pairwise (fun a b => b.date ≤ a.date) ∧
      s.Pairwise (fun a b => b.date ≤ a.date) := by
  refine ⟨runSelect (fun r => r.date) forecastLimit fr,
          runSelect (fun r => r.date) marketLimit mr,
          runSelect (fun r => r.date) summaryLimit sr,
          ?_, ?_, ?_, ?_, ?_, ?_, ?_⟩
  · simp [loadBody, hd, hs, hw, hf, hm, hsu]
  · exact length_runSelect _ _ _
  · exact length_runSelect _ _ _
  · exact length_runSelect _ _ _
  · exact pairwise_runSelect _ _ _
  · exact pairwise_runSelect _ _ _
  · exact pairwise_runSelect _ _ _

/-- Witness for C5: with 500 forecast rows in the warehouse the loaded
forecast set has exactly 100 rows, in date-descending order. -/
theorem C5_witness :
    ∃ f m s, loadBody w500 = Except.ok (f, m, s) ∧ f.length = 100 ∧
      f.Pairwise (fun a b => b.date ≤ a.date) := by
  obtain ⟨f, m, s, hok, hfl, hml, hsl, hfp, hmp, hsp⟩ :=
    C5_limits_and_order w500 frows500 [] [] rfl rfl rfl rfl rfl rfl
  refine ⟨f, m, s, hok, ?_, hfp⟩
  have h500 : frows500.length = 500 := by
    unfold frows500
    rw [List.length_map, List.length_range]
  rw [hfl, h500]
  norm_num [forecastLimit]

/-- C7: whenever the bulk load acquires a connection, the session is
closed on every exit path: successful completion, context-setting
failure, and query failure alike. -/
theorem C7_session_closed (o : ConnOracle) (w : Warehouse) (c : Conn)
    (hc : o.connectResult = Except.ok c) :
    Event.close c ∈ (load_data o w).events := by
  cases hb : loadBody w with
  | ok v =>
      obtain ⟨f, m, s⟩ := v
      simp [load_data, create_connection, hc, hb]
  | error e => simp [load_data, create_connection, hc, hb]

/-- Witness for C7: on a query failure the acquired session is still
closed. -/
theorem C7_witness : Event.close connA ∈ (load_data okOracle authFailWarehouse).events :=
  C7_session_closed okOracle authFailWarehouse connA rfl

/-- C8: create_connection makes exactly one connection attempt per
invocation and, on failure, returns no handle and surfaces the
transport's error text verbatim inside its single displayed message,
without classifying or translating it. -/
theorem C8_single_attempt_verbatim (o : ConnOracle) :
    (create_connection o).events.count Event.connectAttempt = 1 ∧
    (∀ e, o.connectResult = Except.error e →
      (create_connection o).conn = none ∧
      (create_connection o).msgs = [Msg.error ("Connection failed: " ++ e)]) := by
  constructor
  · cases h : o.connectResult <;> simp [create_connection, h]
  · intro e he
    simp [create_connection, he]

/-- Witness for C8: a failed connection attempt yields no handle and
one verbatim error message, after exactly one attempt. -/
theorem C8_witness :
    (create_connection failOracle).events.count Event.connectAttempt = 1 ∧
    (create_connection failOracle).conn = none ∧
    (create_connection failOracle).msgs
      = [Msg.error ("Connection failed: " ++ "network unreachable")] := by
  have h := C8_single_attempt_verbatim failOracle
  exact ⟨h.1, (h.2 "network unreachable" rfl).1, (h.2 "network unreachable" rfl).2⟩

/-- C9: the empty-result condition is not an error: a successful load
with zero forecast rows shows the no-data warning and not the
load-failed error, a failed load shows the load-failed error and not
the no-data warning, and the two messages are distinct. -/
theorem C9_distinct_states (res : LoadResult) :
    loadFailedMsg ≠ noDataMsg ∧
    (res.forecast = none →
      loadFailedMsg ∈ mainStatusMsgs res ∧ noDataMsg ∉ mainStatusMsgs res ∧
      mainView res = View.loadFailed) ∧
    (∀ f, res.forecast = some f → f.length = 0 →
      noDataMsg ∈ mainStatusMsgs res ∧ loadFailedMsg ∉ mainStatusMsgs res ∧
      mainView res = View.noData) := by
  refine ⟨by decide, ?_, ?_⟩
  · intro h
    simp [mainStatusMsgs, mainView, h, loadFailedMsg, noDataMsg, troubleshootMsg]
  · intro f hf h0
    simp [mainStatusMsgs, mainView, hf, h0, loadFailedMsg, noDataMsg]

/-- Witness for C9: a successful load with zero rows shows the no-data
warning and not the load-failed error. -/
theorem C9_witness :
    noDataMsg ∈ mainStatusMsgs ⟨some [], none, none, [], []⟩ ∧
    loadFailedMsg ∉ mainStatusMsgs ⟨some [], none, none, [], []⟩ := by
  have h := (C9_distinct_states ⟨some [], none, none, [], []⟩).2.2 [] rfl rfl
  exact ⟨h.1, h.2.1⟩

/-- C10: in the sidebar status check, when its own connection succeeds
but the context query fails, the failure is silently swallowed: the
only message is the connected status, no error message is shown, the
status connection is closed, and the check made exactly one connection
attempt of its own. -/
theorem C10_sidebar_swallows (o : ConnOracle) (q : Except String SessionCtx)
    (c : Conn) (e : String)
    (hc : o.connectResult = Except.ok c) (hq : q = Except.error e) :
    (sidebarStatus o q).msgs = [Msg.success "✅ Snowflake Connected"] ∧
    (∀ s, Msg.error s ∉ (sidebarStatus o q).msgs) ∧
    Event.close c ∈ (sidebarStatus o q).events ∧
    (sidebarStatus o q).events.count Event.connectAttempt = 1 := by
  subst hq
  refine ⟨?_, ?_, ?_, ?_⟩ <;>
    simp [sidebarStatus, create_connection, hc]

/-- Witness for C10: a failed context query after a successful sidebar
connection leaves only the connected status message, and the sidebar
session is closed. -/
theorem C10_witness :
    (sidebarStatus okOracle (Except.error "ctx failed")).msgs
      = [Msg.success "✅ Snowflake Connected"] ∧
    Event.close connA ∈ (sidebarStatus okOracle (Except.error "ctx failed")).events := by
  have h := C10_sidebar_swallows okOracle (Except.error "ctx failed") connA
    "ctx failed" rfl rfl
  exact ⟨h.1, h.2.2.1⟩

/-- The success flag of a recorded probe outcome matches the oracle
answer's success. -/
theorem isSuccess_probeOne (r : Except String Nat) :
    (probeOne r).isSuccess = probeOk r := by
  cases r <;> rfl

/-- C3: the diagnostic probe mode returns one entry per candidate table,
each recording its own probe's outcome independently: the number of
success entries equals the number of accessible candidates, the number
of failure entries equals the number of inaccessible ones, and every
candidate's own entry is present regardless of the other probes'
outcomes. -/
theorem C3_probe_independent (resolve : String → Except String Nat)
    (candidates : List String) :
    (probe_tables resolve candidates).length = candidates.length ∧
    ((probe_tables resolve candidates).filter
        (fun p => p.outcome.isSuccess)).length
      = (candidates.filter (fun t => probeOk (resolve t))).length ∧
    ((probe_tables resolve candidates).filter
        (fun p => !(p.outcome.isSuccess))).length
      = (candidates.filter (fun t => !(probeOk (resolve t)))).length ∧
    (∀ t ∈ candidates,
      ProbeEntry.mk t (probeOne (resolve t)) ∈ probe_tables resolve candidates) := by
  refine ⟨by simp [probe_tables], ?_, ?_, ?_⟩
  · unfold probe_tables
    rw [length_filter_map_eq]
    simp only [isSuccess_probeOne]
  · unfold probe_tables
    rw [length_filter_map_eq]
    simp only [isSuccess_probeOne]
  · intro t ht
    exact List.mem_map_of_mem _ ht

/-- A concrete probe oracle: two accessible tables, all others missing. -/
def resolveW : String → Except String Nat := fun t =>
  if t = "FORECAST_POSTMORTEM" then Except.ok 42
  else if t = "DAILY_MARKET_DATA" then Except.ok 17
  else Except.error ("Object does not exist: " ++ t)

/-- Four candidate table names, of which two are accessible. -/
def candsW : List String :=
  ["FORECAST_POSTMORTEM", "DAILY_MARKET_DATA", "FORECAST_JOURNAL", "ZEN_GRID_FORECASTS"]

/-- Witness for C3: four candidates with two accessible and two missing
give exactly four entries, two successes and two failures. -/
theorem C3_witness :
    (probe_tables resolveW candsW).length = 4 ∧
    ((probe_tables resolveW candsW).filter
        (fun p => p.outcome.isSuccess)).length = 2 ∧
    ((probe_tables resolveW candsW).filter
        (fun p => !(p.outcome.isSuccess))).length = 2 := by
  have h := C3_probe_independent resolveW candsW
  exact ⟨h.1.trans (by decide), h.2.1.trans (by decide), h.2.2.1.trans (by decide)⟩

/-- Every bias appearing among the group keys has a nonempty group. -/
theorem groupOf_length_pos {rows : List ForecastRow} {b : String}
    (hb : b ∈ groupKeys rows) : 0 < (groupOf rows b).length := by
  unfold groupKeys at hb
  obtain ⟨a, ha, hab⟩ := List.mem_map.mp (List.mem_dedup.mp hb)
  have hmem : a ∈ groupOf rows b := by
    unfold groupOf
    exact List.mem_filter.mpr ⟨ha, by simp [hab]⟩
  exact List.length_pos_of_mem hmem

/-- The group sizes sum to the total number of records. -/
theorem sum_group_lengths (rows : List ForecastRow) :
    ((groupKeys rows).map (fun b => (groupOf rows b).length)).sum = rows.length := by
  unfold groupKeys groupOf
  refine sum_length_filter_key (fun r : ForecastRow => r.forecast_bias) _ rows
    (List.nodup_dedup _) ?_
  intro a ha
  exact List.mem_dedup.mpr (List.mem_map_of_mem _ ha)

/-- The per-group hit counts sum to the total hit count. -/
theorem sum_group_hits (rows : List ForecastRow) :
    ((groupKeys rows).map (fun b => hitsCount (groupOf rows b))).sum
      = hitsCount rows := by
  have hswap : ∀ b ∈ groupKeys rows, hitsCount (groupOf rows b)
      = ((rows.filter (fun r => r.hit)).filter
          (fun r => r.forecast_bias == b)).length := by
    intro b _
    unfold hitsCount groupOf
    rw [filter_swap]
  rw [List.map_congr_left hswap]
  unfold hitsCount
  unfold groupKeys
  refine sum_length_filter_key (fun r : ForecastRow => r.forecast_bias) _ _
    (List.nodup_dedup _) ?_
  intro a ha
  exact List.mem_dedup.mpr (List.mem_map_of_mem _ (List.mem_filter.mp ha).1)

/-- Rounding to one decimal place moves a rational by at most 1/20. -/
theorem abs_round1_sub (q : ℚ) : |round1 q - q| ≤ 1 / 20 := by
  have h := abs_sub_round (q * 10)
  have he : round1 q - q = -((q * 10 - ((round (q * 10) : ℤ) : ℚ)) / 10) := by
    unfold round1
    ring
  rw [he, abs_neg, abs_div]
  have h10 : |(10 : ℚ)| = 10 := by norm_num
  rw [h10]
  linarith

/-- Casting a sum of naturals over a mapped list into the rationals. -/
theorem cast_sum_map_nat (l : List α) (f : α → ℕ) :
    (l.map (fun a => ((f a : ℕ) : ℚ))).sum = (((l.map f).sum : ℕ) : ℚ) := by
  induction l with
  | nil => simp
  | cons x xs ih => simp [ih]

/-- The group sizes, cast to ℚ, sum to the total record count. -/
theorem sum_group_lengths_q (rows : List ForecastRow) :
    ((groupKeys rows).map (fun b => ((groupOf rows b).length : ℚ))).sum
      = (rows.length : ℚ) := by
  rw [cast_sum_map_nat, sum_group_lengths]

/-- The per-group hit counts, cast to ℚ, sum to the total hit count. -/
theorem sum_group_hits_q (rows : List ForecastRow) :
    ((groupKeys rows).map (fun b => (hitsCount (groupOf rows b) : ℚ))).sum
      = (hitsCount rows : ℚ) := by
  rw [cast_sum_map_nat, sum_group_hits]

/-- Without rounding, the count-weighted group percentages sum to
exactly 100 times the total hit count. -/
theorem sum_group_exact (rows : List ForecastRow) :
    ((groupKeys rows).map (fun b => ((groupOf rows b).length : ℚ) *
        (((hitsCount (groupOf rows b) : ℚ) / ((groupOf rows b).length : ℚ)) * 100))).sum
      = (hitsCount rows : ℚ) * 100 := by
  have hcong : ∀ b ∈ groupKeys rows,
      ((groupOf rows b).length : ℚ) *
          (((hitsCount (groupOf rows b) : ℚ) / ((groupOf rows b).length : ℚ)) * 100)
        = (hitsCount (groupOf rows b) : ℚ) * 100 := by
    intro b hb
    have hpos := groupOf_length_pos hb
    have hne : ((groupOf rows b).length : ℚ) ≠ 0 := by
      exact_mod_cast Nat.pos_iff_ne_zero.mp hpos
    field_simp
  rw [List.map_congr_left hcong, List.sum_map_mul_right, sum_group_hits_q]

/-- C6: the per-bias accuracy percentages displayed by the dashboard
(each rounded to 1 decimal place), weighted by each group's record
count and summed, equal the overall accuracy within the 1-decimal-place
rounding tolerance. -/
theorem C6_weighted_groups (rows : List ForecastRow) (h : rows ≠ []) :
    |weightedGroupAccuracy rows - accuracy rows| ≤ 1 / 10 := by
  have hlen : 0 < rows.length := List.length_pos.mpr h
  have hN : (0 : ℚ) < (rows.length : ℚ) := by exact_mod_cast hlen
  have hNne : (rows.length : ℚ) ≠ 0 := ne_of_gt hN
  have hacc : accuracy rows = ((hitsCount rows : ℚ) / (rows.length : ℚ)) * 100 := by
    unfold accuracy
    rw [if_pos hlen]
  have key : weightedGroupAccuracy rows - accuracy rows
      = (((groupKeys rows).map
            (fun b => ((groupOf rows b).length : ℚ) * groupAccuracyPct rows b)).sum
          - (hitsCount rows : ℚ) * 100) / (rows.length : ℚ) := by
    unfold weightedGroupAccuracy
    rw [hacc]
    ring
  have hbound : |((groupKeys rows).map
        (fun b => ((groupOf rows b).length : ℚ) * groupAccuracyPct rows b)).sum
      - (hitsCount rows : ℚ) * 100| ≤ (rows.length : ℚ) * (1 / 20) := by
    rw [← sum_group_exact rows, sum_map_sub_eq]
    calc |((groupKeys rows).map
          (fun b => ((groupOf rows b).length : ℚ) * groupAccuracyPct rows b
            - ((groupOf rows b).length : ℚ) *
                (((hitsCount (groupOf rows b) : ℚ) /
                  ((groupOf rows b).length : ℚ)) * 100))).sum|
        ≤ ((groupKeys rows).map
            (fun b => ((groupOf rows b).length : ℚ) * (1 / 20))).sum := by
          apply abs_sum_le_sum_abs_bound
          intro b _
          have h1 : ((groupOf rows b).length : ℚ) * groupAccuracyPct rows b
              - ((groupOf rows b).length : ℚ) *
                  (((hitsCount (groupOf rows b) : ℚ) /
                    ((groupOf rows b).length : ℚ)) * 100)
              = ((groupOf rows b).length : ℚ) *
                  (round1 (((hitsCount (groupOf rows b) : ℚ) /
                    ((groupOf rows b).length : ℚ)) * 100)
                    - ((hitsCount (groupOf rows b) : ℚ) /
                      ((groupOf rows b).length : ℚ)) * 100) := by
            unfold groupAccuracyPct
            ring
          rw [h1, abs_mul,
            abs_of_nonneg (by positivity : (0 : ℚ) ≤ ((groupOf rows b).length : ℚ))]
          exact mul_le_mul_of_nonneg_left (abs_round1_sub _) (by positivity)
      _ = (((groupKeys rows).map
            (fun b => ((groupOf rows b).length : ℚ))).sum) * (1 / 20) :=
          List.sum_map_mul_right _ _ _
      _ = (rows.length : ℚ) * (1 / 20) := by rw [sum_group_lengths_q]
  rw [key, abs_div, abs_of_pos hN]
  have hdiv : (|((groupKeys rows).map
        (fun b => ((groupOf rows b).length : ℚ) * groupAccuracyPct rows b)).sum
      - (hitsCount rows : ℚ) * 100|) / (rows.length : ℚ)
      ≤ ((rows.length : ℚ) * (1 / 20)) / (rows.length : ℚ) := by
    gcongr
  have heq : ((rows.length : ℚ) * (1 / 20)) / (rows.length : ℚ) = 1 / 20 := by
    field_simp
    ring
  rw [heq] at hdiv
  linarith

/-- Witness for C6: on two rows with distinct biases the weighted group
accuracy is within the tolerance of the overall accuracy. -/
theorem C6_witness :
    |weightedGroupAccuracy [rowHit, rowMiss] - accuracy [rowHit, rowMiss]| ≤ 1 / 10 :=
  C6_weighted_groups [rowHit, rowMiss] (by simp)

end ZenGrid
